import Mathlib

/-!
Verification of the leal-hospital backend against its natural-language
specification.  The Go source is shallowly embedded: handlers and services
become pure Lean functions, the SQL gateways become function parameters or
explicit list-backed stores, and `sql.NullString` becomes a two-field
structure.  Time is passed explicitly as an integer, and the outcome a
handler reports to the HTTP caller is an inductive mirroring the
`medierror` constructors actually invoked in the source.
-/

namespace LealHospital

/-- Embedding of Go `sql.NullString`: a string plus a validity flag.
The string field is meaningful only when `valid` is true, exactly as in
`database/sql`. -/
structure NullString where
  string : String
  valid : Bool
deriving DecidableEq, Repr

/-- Embedding of the `lael_users` row (sqlc model `db.LaelUser`, schema in
`src/unnamed/part_007`): designation and status are kept as strings, the
password hash is a nullable string. -/
structure LaelUser where
  id : Int
  name : String
  mobile : String
  email : String
  designation : String
  status : String
  isAdmin : Bool
  isApproved : Bool
  passwordHash : NullString
deriving DecidableEq, Repr

/-- Result of a single-row gateway read: `noRows` embeds `sql.ErrNoRows`,
`other` any other database error. -/
inductive DBErr where
  | noRows
  | other
deriving DecidableEq, Repr

/-! ## Login handler (`src/server/handler/auth/api/auth.go`, `Login`)

The handler body after request binding, lines 245-305 of `auth.go`:
fetch the user by email, check `IsApproved`, check `PasswordHash.Valid`,
verify the password, then generate-and-send the 2FA OTP.  The gateway
(`GetUserByEmail`), the password service (`VerifyPassword`, success as
`true`) and the OTP dispatch (success as `true`) are parameters. -/

/-- The outcomes the `Login` handler can report, one constructor per
`medierror` constructor called in the source (plus the success response). -/
inductive LoginOutcome where
  | invalidCredentials
  | staffNotApproved
  | internalServer
  | otpSent
deriving DecidableEq, Repr

/-- The registry error code attached to each login outcome, per the
constructors in `src/unnamed/part_009` (`ErrInvalidCredentials` = 2000,
`ErrStaffNotApproved` = 2005, `ErrInternalServer` = 1004). -/
def LoginOutcome.errorCode : LoginOutcome → Option String
  | .invalidCredentials => some "2000"
  | .staffNotApproved => some "2005"
  | .internalServer => some "1004"
  | .otpSent => none

/-- Embedding of `authHandler.Login` (lines 249-305): the exact branch
order of the source — user fetch, approval gate, null-hash check,
password verification, OTP dispatch. -/
def Login (getUserByEmail : String → Except DBErr LaelUser)
    (verifyPassword : String → String → Bool)
    (generateAndSendOTPOk : Bool)
    (email password : String) : LoginOutcome :=
  match getUserByEmail email with
  | .error .noRows => .invalidCredentials
  | .error .other => .internalServer
  | .ok user =>
    if !user.isApproved then .staffNotApproved
    else if !user.passwordHash.valid then .invalidCredentials
    else if !(verifyPassword user.passwordHash.string password) then .invalidCredentials
    else if generateAndSendOTPOk then .otpSent
    else .internalServer

/-- A concrete existing, not-yet-approved staff user (the spec's
"Nurse Priya" scenario). -/
def priya : LaelUser :=
  { id := 7, name := "Nurse Priya", mobile := "9876543211",
    email := "priya@lael.test", designation := "nurse", status := "active",
    isAdmin := false, isApproved := false,
    passwordHash := { string := "bcrypt-hash-priya", valid := true } }

/-- A concrete approved user whose status is not active. -/
def inactiveUser : LaelUser :=
  { id := 9, name := "Dr. Rao", mobile := "9876543299",
    email := "rao@lael.test", designation := "doctor", status := "inactive",
    isAdmin := false, isApproved := true,
    passwordHash := { string := "bcrypt-hash-rao", valid := true } }

/-- A concrete approved user whose password hash is unset
(`sql.NullString` with `Valid = false`). -/
def noHashUser : LaelUser :=
  { id := 3, name := "Staff Anu", mobile := "9876543233",
    email := "anu@lael.test", designation := "staff", status := "active",
    isAdmin := false, isApproved := true,
    passwordHash := { string := "", valid := false } }

/-- A concrete approved, active user with a password hash set. -/
def approvedUser : LaelUser :=
  { id := 4, name := "Dr. Mira", mobile := "9876543244",
    email := "mira@lael.test", designation := "doctor", status := "active",
    isAdmin := false, isApproved := true,
    passwordHash := { string := "bcrypt-hash-mira", valid := true } }

/-! ## Register handler (`src/server/handler/auth/api/auth.go`, `Register`)

Lines 74-145: duplicate pre-check via `GetUserByEmail` only, password
hashing, the designation switch, `CreateUser`, then OTP dispatch.  The
second component of the result records the row submitted to a successful
`CreateUser` call (the persisted user), making the gateway write an
explicit observable effect of the embedding. -/

/-- The `lael_users` designation enum (`db.LaelUsersDesignation`). -/
inductive Designation where
  | doctor
  | nurse
  | staff
deriving DecidableEq, Repr

/-- The designation switch inlined in `Register` (auth.go lines 93-105):
only doctor, nurse and staff convert; anything else is rejected. -/
def designationOfString : String → Option Designation
  | "doctor" => some .doctor
  | "nurse" => some .nurse
  | "staff" => some .staff
  | _ => none

/-- Embedding of `db.CreateUserParams` (sqlc params of the `CreateUser`
query in `users.sql`). -/
structure CreateUserParams where
  name : String
  mobile : String
  email : String
  designation : Designation
  isAdmin : Bool
  isApproved : Bool
  passwordHash : NullString
deriving DecidableEq, Repr

/-- Failure of the `CreateUser` gateway write: `dupKey` embeds a MySQL
duplicate-key error from the unique constraints on mobile/email, `other`
any other database error.  The Go handler does not inspect which. -/
inductive CreateErr where
  | dupKey
  | other
deriving DecidableEq, Repr

/-- Embedding of `dto.RegisterRequest` after binding. -/
structure RegisterRequest where
  name : String
  mobile : String
  email : String
  designation : String
  password : String
deriving DecidableEq, Repr

/-- The outcomes the `Register` handler can report, one constructor per
`medierror` constructor called in the source.  `userCreatedOtpFailed` is
the `ErrInternalServer().WithDisplayMessage(...)` path after the user row
was persisted. -/
inductive RegisterOutcome where
  | userAlreadyExists
  | internalServer
  | badRequest
  | userCreatedOtpFailed
  | registered
deriving DecidableEq, Repr

/-- The registry error code attached to each register outcome, per
`src/unnamed/part_009` (`ErrUserAlreadyExists` = 3001, `ErrInternalServer`
= 1004, `ErrBadRequestWithMsg` uses HTTP-style code 400). -/
def RegisterOutcome.errorCode : RegisterOutcome → Option String
  | .userAlreadyExists => some "3001"
  | .internalServer => some "1004"
  | .badRequest => some "400"
  | .userCreatedOtpFailed => some "1004"
  | .registered => none

/-- Embedding of `authHandler.Register` (lines 74-145), in source branch
order: the `err == nil && existingUser.ID > 0` duplicate pre-check on the
email gateway, hashing, the designation switch, the gateway insert, OTP
dispatch. -/
def Register (getUserByEmail : String → Except DBErr LaelUser)
    (hashPassword : String → Option String)
    (createUser : CreateUserParams → Except CreateErr Int)
    (otpOk : Bool) (req : RegisterRequest) :
    RegisterOutcome × Option CreateUserParams :=
  let existsAlready : Bool :=
    match getUserByEmail req.email with
    | .ok existing => decide (0 < existing.id)
    | .error _ => false
  if existsAlready then (.userAlreadyExists, none)
  else
    match hashPassword req.password with
    | none => (.internalServer, none)
    | some hash =>
      match designationOfString req.designation with
      | none => (.badRequest, none)
      | some desig =>
        let params : CreateUserParams :=
          { name := req.name, mobile := req.mobile, email := req.email,
            designation := desig, isAdmin := false, isApproved := false,
            passwordHash := { string := hash, valid := true } }
        match createUser params with
        | .error _ => (.internalServer, none)
        | .ok _ =>
          if otpOk then (.registered, some params)
          else (.userCreatedOtpFailed, some params)

/-- A registration request asking for the admin role. -/
def adminRegisterReq : RegisterRequest :=
  { name := "Admin A", mobile := "9000000001", email := "admin@lael.test",
    designation := "admin", password := "secret-123" }

/-- A valid staff registration request (designation nurse). -/
def nurseRegisterReq : RegisterRequest :=
  { name := "Nurse Priya", mobile := "9876543211", email := "priya@lael.test",
    designation := "nurse", password := "secret-123" }

/-- A registration request whose mobile duplicates an existing user but
whose email is fresh. -/
def dupMobileReq : RegisterRequest :=
  { name := "Priya Clone", mobile := "9876543211", email := "priya2@lael.test",
    designation := "nurse", password := "secret-123" }

/-- The row `Register` submits for `nurseRegisterReq` when the hash
service returns "HASH". -/
def nurseParams : CreateUserParams :=
  { name := "Nurse Priya", mobile := "9876543211", email := "priya@lael.test",
    designation := .nurse, isAdmin := false, isApproved := false,
    passwordHash := { string := "HASH", valid := true } }

/-! ## Dependency container (`src/server/di/container.go`)

Capability keys (Go: `reflect.Type`) are numbers, instances (Go: non-nil
`any`) are numbers, and Go `nil` is `Option.none`.  A Go factory
`func(*Container) any` is embedded as the list of keys it resolves plus a
function from the resolution results to its (possibly nil) product; the
factory bodies in this repository (`src/unnamed/part_001`) resolve a
fixed list of dependencies and then construct.  The three `sync.Map`
fields become association lists (`Store` = prepend, first match wins =
overwrite).  The claims concern single-threaded resolution, so the maps
are threaded as explicit state.  Go recursion depth is modelled by an
explicit fuel argument; returning at fuel 0 is an artifact of the
embedding, and termination claims are stated as fuel-independence of the
result for every sufficiently large fuel. -/

/-- Capability key (Go `reflect.Type`). -/
abbrev Key := Nat

/-- A constructed instance (Go non-nil `any`). -/
abbrev Inst := Nat

/-- Embedding of the Go `Factory` function type: the keys it resolves and
how it builds its product (none = the factory returned nil). -/
structure Factory where
  deps : List Key
  make : List (Option Inst) → Option Inst

/-- Embedding of `di.Container`: singleton instances, factories, and the
keys currently being resolved (circular detection). -/
structure Container where
  services : List (Key × Inst)
  factories : List (Key × Factory)
  resolving : List Key

/-- Association-list lookup standing for `sync.Map.Load`. -/
def lookupKey {α : Type} : List (Key × α) → Key → Option α
  | [], _ => none
  | (k1, v) :: rest, k => if k1 = k then some v else lookupKey rest k

/-- Embedding of `Container.RegisterFactory`: `sync.Map.Store` as prepend
(first match wins, so a later registration overwrites). -/
def RegisterFactory (c : Container) (k : Key) (f : Factory) : Container :=
  { c with factories := (k, f) :: c.factories }

mutual

/-- Embedding of `Container.Resolve` (container.go lines 37-73), in
source order: cached-service check, circular-dependency check (return
nil), mark as resolving, factory lookup; if the factory returns nil,
return nil; otherwise cache and return; if no factory is bound, return
nil ("not registered").  The deferred `resolving.Delete` is the `erase`
on every path that marked the key.  `ResolveAll` runs the re-entrant
`resolve` calls a factory body makes for its dependencies. -/
def Resolve : Nat → Container → Key → Option Inst × Container
  | 0, c, _ => (none, c)
  | fuel + 1, c, k =>
    match lookupKey c.services k with
    | some s => (some s, c)
    | none =>
      if k ∈ c.resolving then (none, c)
      else
        let c1 : Container := { c with resolving := k :: c.resolving }
        match lookupKey c1.factories k with
        | some f =>
          let r := ResolveAll fuel c1 f.deps
          match f.make r.1 with
          | none => (none, { r.2 with resolving := r.2.resolving.erase k })
          | some s =>
            (some s, { r.2 with services := (k, s) :: r.2.services,
                                resolving := r.2.resolving.erase k })
        | none => (none, { c1 with resolving := c1.resolving.erase k })
termination_by fuel _ _ => (fuel, 0)

/-- The dependency-resolution loop of a factory body: re-enters `Resolve`
for each dependency key in order, threading the container state. -/
def ResolveAll : Nat → Container → List Key → List (Option Inst) × Container
  | _, c, [] => ([], c)
  | fuel, c, k :: ks =>
    let r1 := Resolve fuel c k
    let r2 := ResolveAll fuel r1.2 ks
    (r1.1 :: r2.1, r2.2)
termination_by fuel _ ks => (fuel, ks.length + 1)

end

/-- A factory that resolves the single key `dep` and constructs from the
result, propagating failure (the Go bodies in `part_001` consume the
resolved dependency, so nothing can be built from a failed resolution). -/
def strictFactory (dep : Key) : Factory :=
  { deps := [dep],
    make := fun args =>
      match args with
      | [some v] => some (v + 1)
      | _ => none }

/-- The container obtained by registering factory `a` that resolves `b`
and factory `b` that resolves `a` (the spec's P7 setup). -/
def circularContainer (a b : Key) : Container :=
  { services := [], resolving := [],
    factories := [(a, strictFactory b), (b, strictFactory a)] }

/-- The empty container (`NewContainer`). -/
def emptyContainer : Container :=
  { services := [], factories := [], resolving := [] }

/-! ## OTP service (`src/unnamed/part_006`) and the VerifyOTP handler

The `lael_otp` table is an explicit list of rows; the sqlc queries
`GetLatestOTPByEmail`, `ValidateOTP` and `IncrementRetryCount`
(`patients.sql` lines 57-87 of the combined SQL sources) are pure list
operations; `time.Now()` is an explicit integer.  The list-backed
gateway cannot fail, so the db-error branches of the Go code do not
arise; the only modelled `error` return of `VerifyOTP` is the invalid
otp-type string. -/

/-- The `lael_otp.otp_type` enum (`db.LaelOtpOtpType`). -/
inductive OtpType where
  | registration
  | login
  | forgotPassword
deriving DecidableEq, Repr

/-- The otp-type switch of `OTPSvc.VerifyOTP` / `GenerateAndSendOTP`
(part_006): only the three enum strings convert. -/
def otpTypeOfString : String → Option OtpType
  | "registration" => some .registration
  | "login" => some .login
  | "forgot_password" => some .forgotPassword
  | _ => none

/-- Embedding of a `lael_otp` row (sqlc model `db.LaelOtp`). -/
structure LaelOtp where
  id : Int
  mobile : String
  email : String
  otp : String
  expiry : Int
  otpType : OtpType
  isValidated : Bool
  retryCount : Int
  createdOn : Int
deriving DecidableEq, Repr

/-- The WHERE clause of the `GetLatestOTPByEmail` query:
`email = ? AND otp_type = ? AND is_validated = FALSE`. -/
def otpRowMatches (email : String) (t : OtpType) (r : LaelOtp) : Bool :=
  r.email == email && r.otpType == t && r.isValidated == false

/-- `ORDER BY created_on DESC LIMIT 1`: the row with the greatest
`created_on` among those given (on ties the earlier row in table order —
an arbitrary choice, which MySQL leaves unspecified). -/
def latestOTPRow : List LaelOtp → Option LaelOtp
  | [] => none
  | r :: rs =>
    match latestOTPRow rs with
    | none => some r
    | some r2 => if r2.createdOn > r.createdOn then some r2 else some r

/-- Embedding of the sqlc query `GetLatestOTPByEmail` (none = the
`sql.ErrNoRows` outcome of a `:one` query). -/
def GetLatestOTPByEmail (store : List LaelOtp) (email : String) (t : OtpType) :
    Option LaelOtp :=
  latestOTPRow (store.filter (otpRowMatches email t))

/-- Embedding of the sqlc query `IncrementRetryCount`
(`UPDATE lael_otp SET retry_count = retry_count + 1 WHERE id = ?`). -/
def IncrementRetryCount (store : List LaelOtp) (id : Int) : List LaelOtp :=
  store.map fun r => if r.id = id then { r with retryCount := r.retryCount + 1 } else r

/-- Embedding of the sqlc query `ValidateOTP`
(`UPDATE lael_otp SET is_validated = TRUE WHERE id = ?`). -/
def ValidateOTP (store : List LaelOtp) (id : Int) : List LaelOtp :=
  store.map fun r => if r.id = id then { r with isValidated := true } else r

/-- Embedding of `OTPSvc.VerifyOTP` (part_006 lines 71-130) in source
branch order: otp-type conversion (`.error` = the Go non-nil error
return), latest-unvalidated fetch (no row = return false), expiry check
(`time.Now().After` = strict `>`), code comparison (mismatch increments
the retry count and returns false), then mark validated and return
true.  The updated OTP table is threaded in the result. -/
def VerifyOTP (now : Int) (store : List LaelOtp) (email otp otpTypeStr : String) :
    Except Unit (Bool × List LaelOtp) :=
  match otpTypeOfString otpTypeStr with
  | none => .error ()
  | some t =>
    match GetLatestOTPByEmail store email t with
    | none => .ok (false, store)
    | some r =>
      if now > r.expiry then .ok (false, store)
      else if r.otp ≠ otp then .ok (false, IncrementRetryCount store r.id)
      else .ok (true, ValidateOTP store r.id)

/-- The outcomes the `VerifyOTP` handler can report, one constructor per
`medierror` constructor called in the source. -/
inductive VerifyOTPOutcome where
  | internalServer
  | invalidOTP
  | userNotFound
  | tokensIssued
deriving DecidableEq, Repr

/-- The registry error code attached to each VerifyOTP handler outcome,
per `src/unnamed/part_009` (`ErrInvalidOTP` = 2002, `ErrUserNotFound` =
3000, `ErrInternalServer` = 1004).  Note `ErrOTPExpired` (2001) exists in
the registry but is never produced by this handler. -/
def VerifyOTPOutcome.errorCode : VerifyOTPOutcome → Option String
  | .internalServer => some "1004"
  | .invalidOTP => some "2002"
  | .userNotFound => some "3000"
  | .tokensIssued => none

/-- Embedding of `authHandler.VerifyOTP` (auth.go lines 152-223): service
errors become the internal-server error, any false verification result
becomes the single invalid-OTP error, then user fetch and token issuance
(the two token-generation calls collapsed into one success flag). -/
def HandlerVerifyOTP (now : Int) (store : List LaelOtp)
    (getUserByEmail : String → Except DBErr LaelUser) (tokensOk : Bool)
    (email otp otpTypeStr : String) : VerifyOTPOutcome × List LaelOtp :=
  match VerifyOTP now store email otp otpTypeStr with
  | .error _ => (.internalServer, store)
  | .ok (isValid, store2) =>
    if !isValid then (.invalidOTP, store2)
    else
      match getUserByEmail email with
      | .error _ => (.userNotFound, store2)
      | .ok _ =>
        if tokensOk then (.tokensIssued, store2) else (.internalServer, store2)

/-- A concrete OTP row that is already past its expiry at time 200. -/
def expiredOtpRow : LaelOtp :=
  { id := 1, mobile := "", email := "a@x.com", otp := "123456", expiry := 100,
    otpType := .login, isValidated := false, retryCount := 0, createdOn := 50 }

/-- A concrete OTP row still active at time 200. -/
def activeOtpRow : LaelOtp :=
  { id := 2, mobile := "", email := "a@x.com", otp := "123456", expiry := 300,
    otpType := .login, isValidated := false, retryCount := 0, createdOn := 50 }

/-! ## Patient service (`src/unnamed/part_010`, patient-management plan)

`services/patient`: validation helpers (Task 9), the merge helper
(Task 11) and `RegisterPatient` (Task 13).  The patient gateway
(`GetLatestVisitByOPDID`, `CreatePatient`) is a pair of function
parameters; the generated OPD id (a random UUID, Task 10) is an explicit
parameter.  Go `int32` arithmetic wraps, so the visit-number increment
goes through an explicit two's-complement wrap. -/

/-- Two's-complement wrap of Go `int32` addition results
(the constants are 2 to the 31st and 2 to the 32nd power). -/
def int32wrap (n : Int) : Int :=
  (n + 2147483648) % 4294967296 - 2147483648

/-- Embedding of a `lael_patients` row (sqlc model `db.LaelPatient`),
restricted to the columns the embedded code reads. -/
structure LaelPatient where
  id : Int
  name : String
  mobile : String
  opdID : String
  age : Int
  sex : String
  addressLocality : NullString
  addressCity : NullString
  addressState : NullString
  addressPincode : NullString
  visitNumber : Int
deriving DecidableEq, Repr

/-- Embedding of `db.CreatePatientParams` (the columns of the
`CreatePatient` insert in `patients.sql`). -/
structure CreatePatientParams where
  name : String
  mobile : String
  opdID : String
  age : Int
  sex : String
  addressLocality : NullString
  addressCity : NullString
  addressState : NullString
  addressPincode : NullString
  visitNumber : Int
deriving DecidableEq, Repr

namespace Patient

/-- `services/patient` request address (part_010 Task 7). -/
structure Address where
  locality : String
  city : String
  state : String
  pincode : String
deriving DecidableEq, Repr

/-- `services/patient` RegisterRequest (part_010 Task 7): `opdId` is a
nullable pointer — `none` for new patients, set for revisits. -/
structure RegisterRequest where
  mobile : String
  opdId : Option String
  name : String
  age : Int
  sex : String
  address : Address
deriving DecidableEq, Repr

/-- `services/patient` RegisterResponse (part_010 Task 7). -/
structure RegisterResponse where
  id : Int
  opdId : String
  visitNumber : Int
deriving DecidableEq, Repr

/-- `services/patient.ServiceError` (part_010 Task 7): an error code
resolvable through the registry plus a type tag. -/
structure ServiceError where
  code : String
  type : String
deriving DecidableEq, Repr

/-- `HandleServiceErr` constructor (part_010 Task 7). -/
def HandleServiceErr (code errType : String) : ServiceError :=
  { code := code, type := errType }

/-- The success marker `ServiceError{Code: status.OK}` with `status.OK =
"200"` (part_010 Task 2); the Type field keeps its zero value. -/
def serviceOK : ServiceError :=
  { code := "200", type := "" }

/-- All characters are decimal digits — the `[0-9]{10}` regexp body of
`isValidMobile`, over the string's character list. -/
def allDigits : List Char → Bool
  | [] => true
  | c :: cs => c.isDigit && allDigits cs

/-- `isValidMobile` (Task 9): exactly 10 characters, all decimal digits
(the Go code checks byte length 10 plus a `^[0-9]{10}$` regexp; on the
digit-only strings it accepts, byte and character counts agree). -/
def isValidMobile (mobile : String) : Bool :=
  mobile.length == 10 && allDigits mobile.data

/-- `isValidAge` (Task 9): between 1 and 150 inclusive. -/
def isValidAge (age : Int) : Bool :=
  decide (1 ≤ age) && decide (age ≤ 150)

/-- `isValidSex` (Task 9). -/
def isValidSex (sex : String) : Bool :=
  sex == "male" || sex == "female" || sex == "other"

/-- `validateNewPatient` (Task 9): mobile, name, age and sex must be
present (non-empty / non-zero). -/
def validateNewPatient (req : RegisterRequest) : Bool :=
  !(req.mobile == "" || req.name == "" || decide (req.age = 0) || req.sex == "")

/-- `validateRevisitPatient` (Task 9): mobile present and opd id present
and non-empty. -/
def validateRevisitPatient (req : RegisterRequest) : Bool :=
  match req.opdId with
  | none => false
  | some o => !(req.mobile == "" || o == "")

/-- `mergePatientData` (part_010 Task 11, lines 2885-2943): mobile and
opd id are taken from the previous visit, the visit number is the
previous one plus one (Go `int32` addition), and each of name, age, sex
and the four address fields independently takes the new request's value
when it is non-empty / non-zero and otherwise falls back to the previous
visit's value. -/
def mergePatientData (newData : RegisterRequest) (previousData : LaelPatient) :
    CreatePatientParams :=
  { mobile := previousData.mobile
    opdID := previousData.opdID
    visitNumber := int32wrap (previousData.visitNumber + 1)
    name := if newData.name ≠ "" then newData.name else previousData.name
    age := if 0 < newData.age then newData.age else previousData.age
    sex := if newData.sex ≠ "" then newData.sex else previousData.sex
    addressLocality :=
      if newData.address.locality ≠ "" then
        { string := newData.address.locality, valid := true }
      else previousData.addressLocality
    addressCity :=
      if newData.address.city ≠ "" then
        { string := newData.address.city, valid := true }
      else previousData.addressCity
    addressState :=
      if newData.address.state ≠ "" then
        { string := newData.address.state, valid := true }
      else previousData.addressState
    addressPincode :=
      if newData.address.pincode ≠ "" then
        { string := newData.address.pincode, valid := true }
      else previousData.addressPincode }

/-- The shared tail of both `RegisterPatient` branches: the
`CreatePatient` gateway insert (failure = error 1005) and the success
response built from the submitted row. -/
def createAndRespond (createPatient : CreatePatientParams → Except Unit Int)
    (params : CreatePatientParams) : Option RegisterResponse × ServiceError :=
  match createPatient params with
  | .error _ => (none, HandleServiceErr "1005" "INTERNAL")
  | .ok id =>
    (some { id := id, opdId := params.opdID, visitNumber := params.visitNumber },
     serviceOK)

/-- The new-patient branch of `RegisterPatient` (Task 13): required-field
validation, age and sex validation, then the insert with the freshly
generated opd id and visit number 1 (address fields only set when
non-empty, otherwise the `sql.NullString` zero value). -/
def newPatientBranch (createPatient : CreatePatientParams → Except Unit Int)
    (newOpdId : String) (req : RegisterRequest) :
    Option RegisterResponse × ServiceError :=
  if !(validateNewPatient req) then (none, HandleServiceErr "4004" "INTERNAL")
  else if !(isValidAge req.age) then (none, HandleServiceErr "4001" "INTERNAL")
  else if !(isValidSex req.sex) then (none, HandleServiceErr "4001" "INTERNAL")
  else
    createAndRespond createPatient
      { name := req.name, mobile := req.mobile, opdID := newOpdId,
        age := req.age, sex := req.sex,
        addressLocality :=
          if req.address.locality ≠ "" then
            { string := req.address.locality, valid := true }
          else { string := "", valid := false }
        addressCity :=
          if req.address.city ≠ "" then
            { string := req.address.city, valid := true }
          else { string := "", valid := false }
        addressState :=
          if req.address.state ≠ "" then
            { string := req.address.state, valid := true }
          else { string := "", valid := false }
        addressPincode :=
          if req.address.pincode ≠ "" then
            { string := req.address.pincode, valid := true }
          else { string := "", valid := false }
        visitNumber := 1 }

/-- Embedding of `PatientSvc.RegisterPatient` (part_010 Task 13, lines
3064-3161) in source branch order: mobile validation, the
new-vs-revisit branch on `req.OpdId == nil || *req.OpdId == ""`, and in
the revisit branch: revisit validation, latest-visit fetch by opd id
(no row = error 4005, other gateway failure = 1005), the stored-mobile
comparison (mismatch = error 4005), then merge and insert. -/
def RegisterPatient (getLatestVisitByOPDID : String → Except DBErr LaelPatient)
    (createPatient : CreatePatientParams → Except Unit Int)
    (newOpdId : String) (req : RegisterRequest) :
    Option RegisterResponse × ServiceError :=
  if !(isValidMobile req.mobile) then (none, HandleServiceErr "4003" "INTERNAL")
  else
    match req.opdId with
    | none => newPatientBranch createPatient newOpdId req
    | some opdId =>
      if opdId == "" then newPatientBranch createPatient newOpdId req
      else if !(validateRevisitPatient req) then (none, HandleServiceErr "4004" "INTERNAL")
      else
        match getLatestVisitByOPDID opdId with
        | .error .noRows => (none, HandleServiceErr "4005" "INTERNAL")
        | .error .other => (none, HandleServiceErr "1005" "INTERNAL")
        | .ok previousVisit =>
          if previousVisit.mobile ≠ req.mobile then
            (none, HandleServiceErr "4005" "INTERNAL")
          else createAndRespond createPatient (mergePatientData req previousVisit)

/-- A concrete revisit request: mobile 9999999999, an existing opd id,
all merge fields empty. -/
def revisitReq : RegisterRequest :=
  { mobile := "9999999999", opdId := some "LAEL7x1", name := "", age := 0,
    sex := "", address := { locality := "", city := "", state := "", pincode := "" } }

/-- A concrete revisit request supplying only `age` (30), with mobile and
opd id as required and every other merge field empty. -/
def ageOnlyReq : RegisterRequest :=
  { mobile := "9999999999", opdId := some "LAEL7x1", name := "", age := 30,
    sex := "", address := { locality := "", city := "", state := "", pincode := "" } }

/-- A concrete stored latest visit whose mobile (7777777777) differs from
`revisitReq`'s mobile (9999999999). -/
def prevVisitOther : LaelPatient :=
  { id := 11, name := "Someone Else", mobile := "7777777777", opdID := "LAEL7x1",
    age := 40, sex := "male",
    addressLocality := { string := "MG Road", valid := true },
    addressCity := { string := "Chennai", valid := true },
    addressState := { string := "TN", valid := true },
    addressPincode := { string := "600001", valid := true },
    visitNumber := 2 }

/-- A concrete previous visit owned by mobile 9999999999. -/
def prevVisitSame : LaelPatient :=
  { id := 12, name := "Asha Kumar", mobile := "9999999999", opdID := "LAEL7x1",
    age := 29, sex := "female",
    addressLocality := { string := "MG Road", valid := true },
    addressCity := { string := "Chennai", valid := true },
    addressState := { string := "TN", valid := true },
    addressPincode := { string := "600001", valid := true },
    visitNumber := 3 }

end Patient

/-! ## Theorems for claims C1 and C2 -/

/-- C1 counterexample.  The claim says login with ANY existing user plus a
wrong password yields the generic invalid-credentials code.  But for an
existing, not-yet-approved user the handler returns the not-approved error
(code 2005) before the password is ever verified — here the password
service is the constant-mismatch function, so the password is wrong, yet
the outcome is `staffNotApproved`, not `invalidCredentials`, and the two
outcomes carry different registry codes. -/
theorem login_unapproved_user_leaks_existence :
    Login (fun _ => .ok priya) (fun _ _ => false) true "priya@lael.test" "wrong-pw"
        = .staffNotApproved
    ∧ LoginOutcome.staffNotApproved ≠ LoginOutcome.invalidCredentials
    ∧ LoginOutcome.staffNotApproved.errorCode ≠ LoginOutcome.invalidCredentials.errorCode := by
  refine ⟨rfl, by decide, by decide⟩

/-- C1 amended.  The three password-login failure cases — user record
absent, password hash unset, password verification mismatch — all return
the same generic invalid-credentials outcome (registry code 2000),
provided the fetched user is approved (the approval gate fires first and
returns a different code for unapproved users, see the counterexample).
In particular a non-existent email and an existing approved user with a
wrong password are indistinguishable. -/
theorem login_failure_cases_uniform_for_approved
    (getU : String → Except DBErr LaelUser) (vp : String → String → Bool)
    (otpOk : Bool) (email password : String) :
    (getU email = .error .noRows →
      Login getU vp otpOk email password = .invalidCredentials)
    ∧ (∀ u, getU email = .ok u → u.isApproved = true → u.passwordHash.valid = false →
      Login getU vp otpOk email password = .invalidCredentials)
    ∧ (∀ u, getU email = .ok u → u.isApproved = true → u.passwordHash.valid = true →
      vp u.passwordHash.string password = false →
      Login getU vp otpOk email password = .invalidCredentials) := by
  refine ⟨?_, ?_, ?_⟩
  · intro h
    simp [Login, h]
  · intro u h ha hv
    simp [Login, h, ha, hv]
  · intro u h ha hv hp
    simp [Login, h, ha, hv, hp]

/-- Witness for C1 amended: evaluated at a non-existent email, at an
approved user with no password hash, and at an approved user with a
mismatching password — all three give invalid-credentials. -/
theorem login_failure_cases_uniform_for_approved_witness :
    Login (fun _ => .error .noRows) (fun _ _ => false) true "ghost@lael.test" "pw"
        = .invalidCredentials
    ∧ Login (fun _ => .ok noHashUser) (fun _ _ => false) true "anu@lael.test" "pw"
        = .invalidCredentials
    ∧ Login (fun _ => .ok approvedUser) (fun _ _ => false) true "mira@lael.test" "pw"
        = .invalidCredentials :=
  ⟨(login_failure_cases_uniform_for_approved _ _ _ _ _).1 rfl,
   (login_failure_cases_uniform_for_approved _ _ _ _ _).2.1 noHashUser rfl rfl rfl,
   (login_failure_cases_uniform_for_approved _ _ _ _ _).2.2 approvedUser rfl rfl rfl rfl⟩

/-- C2 counterexample.  The claim says a user whose password verifies but
whose status is not active receives a distinct inactive signal rather
than a successful login.  The handler never reads `status`: this
approved user with status `inactive` and a correct password gets the
success response (OTP dispatched). -/
theorem login_inactive_status_logs_in :
    inactiveUser.status = "inactive"
    ∧ inactiveUser.isApproved = true
    ∧ Login (fun _ => .ok inactiveUser) (fun _ _ => true) true "rao@lael.test" "correct-pw"
        = .otpSent :=
  ⟨rfl, rfl, rfl⟩

/-- C2 amended.  The approval gate is applied BEFORE credential
verification: an unapproved fetched user receives the distinct
pending-approval signal (code 2005) regardless of the submitted password
(in particular with the correct one, which is the spec's Nurse Priya
scenario).  There is no status gate: any approved fetched user whose
password verifies proceeds to the successful-login path irrespective of
the `status` field. -/
theorem login_approval_gate_precedes_verification
    (getU : String → Except DBErr LaelUser) (vp : String → String → Bool)
    (otpOk : Bool) (email password : String) :
    (∀ u, getU email = .ok u → u.isApproved = false →
      Login getU vp otpOk email password = .staffNotApproved)
    ∧ (∀ u, getU email = .ok u → u.isApproved = true → u.passwordHash.valid = true →
      vp u.passwordHash.string password = true → otpOk = true →
      Login getU vp otpOk email password = .otpSent) := by
  constructor
  · intro u h ha
    simp [Login, h, ha]
  · intro u h ha hv hp ho
    simp [Login, h, ha, hv, hp, ho]

/-- Witness for C2 amended: Nurse Priya (unapproved) with a CORRECT
password gets pending-approval; Dr. Rao (approved, status inactive) with
a correct password gets the success response. -/
theorem login_approval_gate_precedes_verification_witness :
    Login (fun _ => .ok priya) (fun _ _ => true) true "priya@lael.test" "correct-pw"
        = .staffNotApproved
    ∧ Login (fun _ => .ok inactiveUser) (fun _ _ => true) true "rao@lael.test" "correct-pw"
        = .otpSent :=
  ⟨(login_approval_gate_precedes_verification _ _ _ _ _).1 priya rfl rfl,
   (login_approval_gate_precedes_verification _ _ _ _ _).2 inactiveUser rfl rfl rfl rfl rfl⟩

/-! ## Theorems for claims C3 and C4 -/

/-- C3 counterexample.  The claim says Register creates the user record
with `is_approved = true` when the registrant is an admin.  The handler
has no admin path at all: a request with designation "admin" falls into
the switch default and is rejected as a bad request, and no user row is
submitted to the gateway (second component `none`). -/
theorem register_admin_designation_rejected :
    Register (fun _ => .error .noRows) (fun p => some ("hash:" ++ p))
        (fun _ => .ok 1) true adminRegisterReq = (.badRequest, none)
    ∧ RegisterOutcome.badRequest ≠ .registered := by
  refine ⟨rfl, by decide⟩

/-- C3 amended.  Register accepts only the designations doctor, nurse and
staff; every user row it submits to the gateway has `is_admin = false`
and `is_approved = false` (both hardcoded at auth.go lines 113-114), and
a request with designation "admin" never produces a user row. -/
theorem register_created_user_never_admin_never_approved
    (getU : String → Except DBErr LaelUser) (hashPw : String → Option String)
    (createU : CreateUserParams → Except CreateErr Int) (otpOk : Bool)
    (req : RegisterRequest) :
    (∀ params, (Register getU hashPw createU otpOk req).2 = some params →
      params.isAdmin = false ∧ params.isApproved = false)
    ∧ (req.designation = "admin" →
      (Register getU hashPw createU otpOk req).2 = none) := by
  constructor
  · intro params h
    unfold Register at h
    dsimp only at h
    repeat' split at h
    all_goals simp_all
    all_goals (subst h; exact ⟨rfl, rfl⟩)
  · intro hd
    unfold Register
    dsimp only
    rw [hd]
    repeat' split
    all_goals simp_all [designationOfString]

/-- Witness for C3 amended: a concrete successful nurse registration
produces exactly `nurseParams`, and the theorem yields its flags. -/
theorem register_created_user_never_admin_never_approved_witness :
    Register (fun _ => .error .noRows) (fun _ => some "HASH") (fun _ => .ok 1) true
        nurseRegisterReq = (.registered, some nurseParams)
    ∧ nurseParams.isAdmin = false ∧ nurseParams.isApproved = false :=
  ⟨rfl,
   ((register_created_user_never_admin_never_approved (fun _ => .error .noRows)
      (fun _ => some "HASH") (fun _ => .ok 1) true nurseRegisterReq).1
      nurseParams rfl).1,
   ((register_created_user_never_admin_never_approved (fun _ => .error .noRows)
      (fun _ => some "HASH") (fun _ => .ok 1) true nurseRegisterReq).1
      nurseParams rfl).2⟩

/-- C4 counterexample.  The claim says a duplicate mobile — also when it
is only caught by the gateway's unique constraint — yields the
already-exists business error.  Here the email pre-check passes (fresh
email), the gateway insert fails with a duplicate-key error on the
mobile unique constraint, and the handler surfaces the raw
internal-server error 1004, not the already-exists error 3001.  (Register
performs no mobile pre-check at all: its only gateway read is
`GetUserByEmail`.) -/
theorem register_gateway_dup_key_not_mapped :
    Register (fun _ => .error .noRows) (fun _ => some "HASH")
        (fun _ => .error .dupKey) true dupMobileReq = (.internalServer, none)
    ∧ RegisterOutcome.internalServer ≠ .userAlreadyExists
    ∧ RegisterOutcome.internalServer.errorCode
        ≠ RegisterOutcome.userAlreadyExists.errorCode := by
  refine ⟨rfl, by decide, by decide⟩

/-- C4 amended.  Register pre-checks uniqueness only for the email (the
`GetUserByEmail` pre-check maps to the already-exists error 3001); a
duplicate caught only by the gateway's unique constraint — in
particular any duplicate mobile — surfaces as the generic
internal-server error 1004. -/
theorem register_uniqueness_email_precheck_only
    (getU : String → Except DBErr LaelUser) (hashPw : String → Option String)
    (createU : CreateUserParams → Except CreateErr Int) (otpOk : Bool)
    (req : RegisterRequest) :
    (∀ u, getU req.email = .ok u → 0 < u.id →
      (Register getU hashPw createU otpOk req).1 = .userAlreadyExists)
    ∧ (getU req.email = .error .noRows →
      ∀ hash d, hashPw req.password = some hash →
      designationOfString req.designation = some d →
      (∀ p, createU p = .error .dupKey) →
      (Register getU hashPw createU otpOk req).1 = .internalServer) := by
  constructor
  · intro u h hid
    simp [Register, h, hid]
  · intro h hash d hh hd hc
    simp [Register, h, hh, hd, hc]

/-- Witness for C4 amended: a duplicate email caught by the pre-check
yields already-exists; a fresh email whose insert hits the unique
constraint yields internal-server. -/
theorem register_uniqueness_email_precheck_only_witness :
    (Register (fun _ => .ok priya) (fun _ => some "HASH") (fun _ => .ok 1) true
        nurseRegisterReq).1 = .userAlreadyExists
    ∧ (Register (fun _ => .error .noRows) (fun _ => some "HASH")
        (fun _ => .error .dupKey) true dupMobileReq).1 = .internalServer :=
  ⟨(register_uniqueness_email_precheck_only _ _ _ _ _).1 priya rfl (by decide),
   (register_uniqueness_email_precheck_only _ _ _ _ _).2 rfl "HASH" .nurse rfl rfl
     (fun _ => rfl)⟩

/-! ## Theorems for claims C5 and C10 -/

/-- Helper: a `Resolve` call on a key already marked as resolving returns
the nil sentinel at once with the container untouched (the circular
branch, container.go lines 46-49). -/
theorem resolve_mem_resolving (fuel : Nat) (c : Container) (k : Key)
    (hs : lookupKey c.services k = none) (hr : k ∈ c.resolving) :
    Resolve (fuel + 1) c k = (none, c) := by
  rw [Resolve]
  rw [hs]
  dsimp only
  rw [if_pos hr]

/-- Helper: unfolding one `Resolve` step when the key is uncached,
unmarked and bound to a factory. -/
theorem resolve_step (fuel : Nat) (c : Container) (k : Key) (f : Factory)
    (hs : lookupKey c.services k = none) (hr : k ∉ c.resolving)
    (hf : lookupKey c.factories k = some f) :
    Resolve (fuel + 1) c k =
      (let r := ResolveAll fuel { c with resolving := k :: c.resolving } f.deps
       match f.make r.1 with
       | none => (none, { r.2 with resolving := r.2.resolving.erase k })
       | some s => (some s, { r.2 with services := (k, s) :: r.2.services,
                                       resolving := r.2.resolving.erase k })) := by
  rw [Resolve]
  rw [hs]
  dsimp only
  rw [if_neg hr]
  rw [hf]

/-- Helper: every `ResolveAll` run leaves the resolving set unchanged,
assuming single `Resolve` calls at the same fuel do. -/
theorem resolveAll_resolving_eq (fuel : Nat)
    (ih : ∀ c k, (Resolve fuel c k).2.resolving = c.resolving) :
    ∀ ks c, (ResolveAll fuel c ks).2.resolving = c.resolving := by
  intro ks
  induction ks with
  | nil =>
    intro c
    rw [ResolveAll]
  | cons k ks ihl =>
    intro c
    rw [ResolveAll]
    dsimp only
    rw [ihl, ih]

/-- Helper: every `Resolve` call leaves the resolving set exactly as it
found it, whatever the outcome — the deferred `resolving.Delete` undoes
the `resolving.Store` on every path that executed it. -/
theorem resolve_resolving_eq : ∀ fuel c k, (Resolve fuel c k).2.resolving = c.resolving := by
  intro fuel
  induction fuel with
  | zero =>
    intro c k
    rw [Resolve]
  | succ f ih =>
    intro c k
    rw [Resolve]
    dsimp only
    split
    · rfl
    · split
      · rfl
      · split
        · split
          · dsimp only
            rw [resolveAll_resolving_eq f ih]
            exact List.erase_cons_head k c.resolving
          · dsimp only
            rw [resolveAll_resolving_eq f ih]
            exact List.erase_cons_head k c.resolving
        · dsimp only
          exact List.erase_cons_head k c.resolving

/-- C10.  Resolve clears the currently-resolving mark on every exit path:
the resolving set after any `Resolve` call equals the one before it, so a
failed resolution (unregistered key, nil factory result, circular
dependency — all covered by the universally quantified first part) never
poisons the key.  Consequently (second part) a failed `Resolve` of an
unregistered key returns the container unchanged, and after
`RegisterFactory` binds a working factory the same key resolves
successfully. -/
theorem resolve_clears_resolving_mark (fuel : Nat) (c : Container) (k : Key) (v : Inst) :
    (Resolve fuel c k).2.resolving = c.resolving
    ∧ (lookupKey c.services k = none → lookupKey c.factories k = none →
       k ∉ c.resolving →
       Resolve (fuel + 1) c k = (none, c)
       ∧ (Resolve (fuel + 1)
            (RegisterFactory c k { deps := [], make := fun _ => some v }) k).1
          = some v) := by
  refine ⟨resolve_resolving_eq fuel c k, ?_⟩
  intro hs hf hr
  constructor
  · rw [Resolve]
    simp only [hs, hr, ite_false, if_false, hf, List.erase_cons_head]
  · rw [Resolve]
    simp only [RegisterFactory, hs, hr, ite_false, if_false, lookupKey,
      if_pos, eq_self_iff_true, ite_true, if_true, ResolveAll]

/-- Witness for C10: on the empty container, resolving an unregistered
key fails and returns the container unchanged; registering a factory for
the same key then makes it resolve to the factory's product. -/
theorem resolve_clears_resolving_mark_witness :
    Resolve 2 emptyContainer 0 = (none, emptyContainer)
    ∧ (Resolve 2 (RegisterFactory emptyContainer 0
        { deps := [], make := fun _ => some 42 }) 0).1 = some 42 :=
  (resolve_clears_resolving_mark 1 emptyContainer 0 42).2 rfl rfl (by decide)

/-- C5.  For every pair of distinct keys bound to factories that resolve
each other, `Resolve` of the first key terminates — the result is the
same for every call-stack budget of at least 3, so the Go recursion
bottoms out at the re-entrancy check instead of recursing forever — and
the circular dependency is reported to the caller as the nil resolution
sentinel (`none`), which no successful resolution ever returns. -/
theorem resolve_circular_dependency_fails (a b : Key) (hab : a ≠ b)
    (fuel : Nat) (hfuel : 3 ≤ fuel) :
    (Resolve fuel (circularContainer a b) a).1 = none := by
  obtain ⟨m, rfl⟩ : ∃ m, fuel = m + 3 := ⟨fuel - 3, by omega⟩
  have hba : b ≠ a := Ne.symm hab
  show (Resolve (m + 1 + 1 + 1) (circularContainer a b) a).1 = none
  simp [Resolve, ResolveAll, circularContainer, strictFactory, lookupKey, hab, hba]

/-- Witness for C5: the canonical two-key circular container with keys 0
and 1 at the minimal sufficient budget. -/
theorem resolve_circular_dependency_fails_witness :
    (Resolve 3 (circularContainer 0 1) 0).1 = none :=
  resolve_circular_dependency_fails 0 1 (by decide) 3 (by decide)

/-! ## Theorems for claims C6 and C7 -/

/-- C6 counterexample.  The claim says invalid and expired OTP
verifications surface as distinct error codes.  At time 200, submitting
the CORRECT code for an expired record and submitting a WRONG code for
an active record both produce the same invalid-OTP outcome (registry
code 2002): the service returns a bare `(false, nil)` in both cases and
the handler maps every false result to `ErrInvalidOTP`. -/
theorem verify_otp_expired_equals_invalid :
    (HandlerVerifyOTP 200 [expiredOtpRow] (fun _ => .ok priya) true
        "a@x.com" "123456" "login").1 = .invalidOTP
    ∧ (HandlerVerifyOTP 200 [activeOtpRow] (fun _ => .ok priya) true
        "a@x.com" "999999" "login").1 = .invalidOTP
    ∧ VerifyOTPOutcome.invalidOTP.errorCode = some "2002" :=
  ⟨rfl, rfl, rfl⟩

/-- C6 amended.  The three OTP verification failure reasons — no
matching unvalidated record, record expired, submitted code mismatching
— all collapse to the single invalid-OTP error code 2002 at the
handler; callers cannot distinguish invalid from expired from
not-found. -/
theorem verify_otp_failure_reasons_collapse (now : Int) (store : List LaelOtp)
    (getU : String → Except DBErr LaelUser) (tokensOk : Bool)
    (email otp otpTypeStr : String) (t : OtpType)
    (ht : otpTypeOfString otpTypeStr = some t) :
    (GetLatestOTPByEmail store email t = none →
      (HandlerVerifyOTP now store getU tokensOk email otp otpTypeStr).1 = .invalidOTP)
    ∧ (∀ r, GetLatestOTPByEmail store email t = some r → now > r.expiry →
      (HandlerVerifyOTP now store getU tokensOk email otp otpTypeStr).1 = .invalidOTP)
    ∧ (∀ r, GetLatestOTPByEmail store email t = some r → ¬now > r.expiry →
      r.otp ≠ otp →
      (HandlerVerifyOTP now store getU tokensOk email otp otpTypeStr).1 = .invalidOTP) := by
  refine ⟨?_, ?_, ?_⟩
  · intro h
    simp [HandlerVerifyOTP, VerifyOTP, ht, h]
  · intro r h he
    simp [HandlerVerifyOTP, VerifyOTP, ht, h, he]
  · intro r h he hne
    simp [HandlerVerifyOTP, VerifyOTP, ht, h, he, hne]

/-- Witness for C6 amended: not-found, expired and mismatching scenarios
all evaluated to the invalid-OTP outcome. -/
theorem verify_otp_failure_reasons_collapse_witness :
    (HandlerVerifyOTP 200 ([] : List LaelOtp) (fun _ => .ok priya) true
        "a@x.com" "123456" "login").1 = .invalidOTP
    ∧ (HandlerVerifyOTP 200 [expiredOtpRow] (fun _ => .ok priya) true
        "a@x.com" "123456" "login").1 = .invalidOTP
    ∧ (HandlerVerifyOTP 200 [activeOtpRow] (fun _ => .ok priya) true
        "a@x.com" "999999" "login").1 = .invalidOTP :=
  ⟨(verify_otp_failure_reasons_collapse 200 [] (fun _ => .ok priya) true
      "a@x.com" "123456" "login" .login rfl).1 rfl,
   (verify_otp_failure_reasons_collapse 200 [expiredOtpRow] (fun _ => .ok priya) true
      "a@x.com" "123456" "login" .login rfl).2.1 expiredOtpRow rfl (by decide),
   (verify_otp_failure_reasons_collapse 200 [activeOtpRow] (fun _ => .ok priya) true
      "a@x.com" "999999" "login" .login rfl).2.2 activeOtpRow rfl (by decide) (by decide)⟩

/-- Helper: `latestOTPRow` only ever returns a row of the list it was
given. -/
theorem latestOTPRow_mem : ∀ (l : List LaelOtp) (r : LaelOtp),
    latestOTPRow l = some r → r ∈ l := by
  intro l
  induction l with
  | nil =>
    intro r h
    simp [latestOTPRow] at h
  | cons x xs ih =>
    intro r h
    rw [latestOTPRow] at h
    rcases hx : latestOTPRow xs with _ | r2
    · rw [hx] at h
      simp only [Option.some.injEq] at h
      subst h
      exact List.mem_cons_self x xs
    · rw [hx] at h
      dsimp only at h
      split at h
      · simp only [Option.some.injEq] at h
        subst h
        exact List.mem_cons_of_mem x (ih r2 hx)
      · simp only [Option.some.injEq] at h
        subst h
        exact List.mem_cons_self x xs

/-- C7.  OTP records are single-use.  First part: the
`GetLatestOTPByEmail` selection (whose WHERE clause requires
`is_validated = FALSE`) never returns an already-validated record, so a
validated record can never be selected — let alone re-validated — by
any later verify call.  Second part, the spec's P3 scenario: with a
single stored record for the (email, type) pair, a first verify with
the correct code succeeds and marks the record validated, and a second
verify with the very same code then returns false (the validated record
is no longer found). -/
theorem otp_single_use :
    (∀ (store : List LaelOtp) (email : String) (t : OtpType) (r : LaelOtp),
      GetLatestOTPByEmail store email t = some r → r.isValidated = false)
    ∧ (∀ (r : LaelOtp) (now : Int) (code tStr : String) (t : OtpType),
      otpTypeOfString tStr = some t → r.otpType = t → r.isValidated = false →
      r.otp = code → ¬now > r.expiry →
      VerifyOTP now [r] r.email code tStr
          = .ok (true, [{ r with isValidated := true }])
      ∧ VerifyOTP now [{ r with isValidated := true }] r.email code tStr
          = .ok (false, [{ r with isValidated := true }])) := by
  constructor
  · intro store email t r h
    have hm := latestOTPRow_mem _ r h
    have hmatch := (List.mem_filter.mp hm).2
    simp only [otpRowMatches, Bool.and_eq_true, beq_iff_eq] at hmatch
    exact hmatch.2
  · intro r now code tStr t ht hty hval hcode hexp
    constructor
    · simp [VerifyOTP, ht, GetLatestOTPByEmail, latestOTPRow, List.filter,
        otpRowMatches, hty, hval, hcode, hexp, ValidateOTP, beq_self_eq_true]
    · simp [VerifyOTP, ht, GetLatestOTPByEmail, latestOTPRow, List.filter,
        otpRowMatches, hty, hval, hcode, hexp, ValidateOTP, beq_self_eq_true]

/-- Witness for C7: the active login OTP row, verified successfully once
at time 200; the second verify with the same code returns false. -/
theorem otp_single_use_witness :
    VerifyOTP 200 [activeOtpRow] "a@x.com" "123456" "login"
        = .ok (true, [{ activeOtpRow with isValidated := true }])
    ∧ VerifyOTP 200 [{ activeOtpRow with isValidated := true }] "a@x.com" "123456" "login"
        = .ok (false, [{ activeOtpRow with isValidated := true }]) :=
  otp_single_use.2 activeOtpRow 200 "123456" "login" .login rfl rfl rfl rfl (by decide)

/-! ## Theorems for claims C8 and C9 -/

/-- C8 counterexample.  The claim says the OPD-mismatch failure is
distinct from the not-found failure.  For the same revisit request
(mobile 9999999999, opd id present), a gateway that returns a latest
visit stored under mobile 7777777777 and a gateway that returns no row
at all produce the IDENTICAL service error — code 4005, the single
"Invalid OPD ID" registry entry — so the two cases are not
distinguishable by the caller. -/
theorem revisit_mismatch_same_error_as_not_found :
    (Patient.RegisterPatient (fun _ => .ok Patient.prevVisitOther) (fun _ => .ok 99)
        "LAELnew" Patient.revisitReq).2 = Patient.HandleServiceErr "4005" "INTERNAL"
    ∧ (Patient.RegisterPatient (fun _ => .error .noRows) (fun _ => .ok 99)
        "LAELnew" Patient.revisitReq).2 = Patient.HandleServiceErr "4005" "INTERNAL" :=
  ⟨rfl, rfl⟩

/-- C8 amended.  In the revisit branch, both failure cases — no visit
row for the supplied opd id, and a fetched row whose stored mobile
differs from the supplied mobile — fail with the same service error
4005; the mismatch is not distinct from not-found. -/
theorem revisit_mismatch_and_not_found_collapse
    (getV : String → Except DBErr LaelPatient)
    (createP : CreatePatientParams → Except Unit Int)
    (newOpdId : String) (req : Patient.RegisterRequest) (o : String)
    (hm : Patient.isValidMobile req.mobile = true)
    (ho : req.opdId = some o) (hne : (o == "") = false)
    (hv : Patient.validateRevisitPatient req = true) :
    (getV o = .error .noRows →
      (Patient.RegisterPatient getV createP newOpdId req).2
        = Patient.HandleServiceErr "4005" "INTERNAL")
    ∧ (∀ prev, getV o = .ok prev → prev.mobile ≠ req.mobile →
      (Patient.RegisterPatient getV createP newOpdId req).2
        = Patient.HandleServiceErr "4005" "INTERNAL") := by
  constructor
  · intro h
    simp [Patient.RegisterPatient, hm, ho, hne, hv, h]
  · intro prev h hmm
    simp [Patient.RegisterPatient, hm, ho, hne, hv, h, hmm]

/-- Witness for C8 amended: the two concrete gateways of the
counterexample scenario. -/
theorem revisit_mismatch_and_not_found_collapse_witness :
    (Patient.RegisterPatient (fun _ => .error .noRows) (fun _ => .ok 99)
        "LAELnew" Patient.revisitReq).2 = Patient.HandleServiceErr "4005" "INTERNAL"
    ∧ (Patient.RegisterPatient (fun _ => .ok Patient.prevVisitOther) (fun _ => .ok 99)
        "LAELnew" Patient.revisitReq).2 = Patient.HandleServiceErr "4005" "INTERNAL" :=
  ⟨(revisit_mismatch_and_not_found_collapse (fun _ => .error .noRows) (fun _ => .ok 99)
      "LAELnew" Patient.revisitReq "LAEL7x1" rfl rfl rfl rfl).1 rfl,
   (revisit_mismatch_and_not_found_collapse (fun _ => .ok Patient.prevVisitOther)
      (fun _ => .ok 99) "LAELnew" Patient.revisitReq "LAEL7x1" rfl rfl rfl rfl).2
      Patient.prevVisitOther rfl (by decide)⟩

/-- C9.  For a revisit request that supplies only age (with the required
mobile and opd id) and leaves every other merge field empty, the row
built by `mergePatientData` keeps name, sex and all four address fields
equal to the previous visit's values, takes the supplied age, and has a
visit number exactly one greater than the previous visit's (given the
previous visit number fits in `int32` and the increment does not
overflow); mobile and opd id are carried over from the previous visit. -/
theorem merge_age_only_preserves_rest
    (req : Patient.RegisterRequest) (prev : LaelPatient)
    (hname : req.name = "") (hsex : req.sex = "")
    (hloc : req.address.locality = "") (hcity : req.address.city = "")
    (hstate : req.address.state = "") (hpin : req.address.pincode = "")
    (hage : 0 < req.age)
    (hlo : -2147483648 ≤ prev.visitNumber)
    (hhi : prev.visitNumber + 1 < 2147483648) :
    (Patient.mergePatientData req prev).name = prev.name
    ∧ (Patient.mergePatientData req prev).sex = prev.sex
    ∧ (Patient.mergePatientData req prev).addressLocality = prev.addressLocality
    ∧ (Patient.mergePatientData req prev).addressCity = prev.addressCity
    ∧ (Patient.mergePatientData req prev).addressState = prev.addressState
    ∧ (Patient.mergePatientData req prev).addressPincode = prev.addressPincode
    ∧ (Patient.mergePatientData req prev).age = req.age
    ∧ (Patient.mergePatientData req prev).visitNumber = prev.visitNumber + 1
    ∧ (Patient.mergePatientData req prev).mobile = prev.mobile
    ∧ (Patient.mergePatientData req prev).opdID = prev.opdID := by
  have hwrap : int32wrap (prev.visitNumber + 1) = prev.visitNumber + 1 := by
    unfold int32wrap
    omega
  simp [Patient.mergePatientData, hname, hsex, hloc, hcity, hstate, hpin, hage, hwrap]

/-- Witness for C9: the age-only request against a concrete previous
visit with visit number 3. -/
theorem merge_age_only_preserves_rest_witness :
    (Patient.mergePatientData Patient.ageOnlyReq Patient.prevVisitSame).name
        = Patient.prevVisitSame.name
    ∧ (Patient.mergePatientData Patient.ageOnlyReq Patient.prevVisitSame).sex
        = Patient.prevVisitSame.sex
    ∧ (Patient.mergePatientData Patient.ageOnlyReq Patient.prevVisitSame).addressLocality
        = Patient.prevVisitSame.addressLocality
    ∧ (Patient.mergePatientData Patient.ageOnlyReq Patient.prevVisitSame).addressCity
        = Patient.prevVisitSame.addressCity
    ∧ (Patient.mergePatientData Patient.ageOnlyReq Patient.prevVisitSame).addressState
        = Patient.prevVisitSame.addressState
    ∧ (Patient.mergePatientData Patient.ageOnlyReq Patient.prevVisitSame).addressPincode
        = Patient.prevVisitSame.addressPincode
    ∧ (Patient.mergePatientData Patient.ageOnlyReq Patient.prevVisitSame).age
        = Patient.ageOnlyReq.age
    ∧ (Patient.mergePatientData Patient.ageOnlyReq Patient.prevVisitSame).visitNumber
        = Patient.prevVisitSame.visitNumber + 1
    ∧ (Patient.mergePatientData Patient.ageOnlyReq Patient.prevVisitSame).mobile
        = Patient.prevVisitSame.mobile
    ∧ (Patient.mergePatientData Patient.ageOnlyReq Patient.prevVisitSame).opdID
        = Patient.prevVisitSame.opdID :=
  merge_age_only_preserves_rest Patient.ageOnlyReq Patient.prevVisitSame
    rfl rfl rfl rfl rfl rfl (by decide) (by decide) (by decide)

end LealHospital
